import Mathlib

/-!
# Verification of the elb-deleter-aws-connector event-processing core

A shallow embedding of the connector: the `Event` envelope, its
decode/validate/complete/error lifecycle, the `eventHandler` controller
from `main.go`, and the AWS request construction of `deleteELB` and
`mapListeners`.

The repository ships `main.go` (controller, AWS call, subjects) and its
test file; the `Event` type's own methods (`Process`, `Validate`,
`Error`, `Complete`) live in a file not present in the sources, so those
are modelled from the spec, pinned by the assertions of the test file.
-/

namespace ElbDeleter

/-- A single port mapping of the envelope (`Port` in the test file):
from/to port, protocol and optional TLS certificate id. -/
structure Port where
  fromPort : Int
  toPort : Int
  protocol : String
  sslCertID : String
deriving Repr, DecidableEq

/-- The event envelope (`Event`), fields as exercised by the test file:
correlation ids, provider type, target network id, datacenter
credentials/region, resource name and visibility, port mappings, related
resource id lists, and the optional error text. -/
structure Event where
  uuid : String
  batchID : String
  providerType : String
  vpcID : String
  datacenterRegion : String
  datacenterSecret : String
  datacenterToken : String
  elbName : String
  elbIsPrivate : Bool
  elbPorts : List Port
  networkAWSIDs : List String
  instanceAWSIDs : List String
  securityGroupAWSIDs : List String
  errorMessage : Option String
deriving Repr, DecidableEq

/-- Modelled from the spec: `Event.Validate` is not under `src/`; §4.2
fixes five checks in order (target network id, region, secret, token,
resource name), each with its canonical message, the first failure being
returned; the test file pins every message. `none` means valid. -/
def Event.validate (e : Event) : Option String :=
  if e.vpcID = "" then some "Datacenter VPC ID invalid"
  else if e.datacenterRegion = "" then some "Datacenter Region invalid"
  else if e.datacenterSecret = "" then some "Datacenter credentials invalid"
  else if e.datacenterToken = "" then some "Datacenter credentials invalid"
  else if e.elbName = "" then some "ELB name is invalid"
  else none

/-- Modelled from the spec: §4.2 describes validation as a
priority-ordered list of predicate/message pairs evaluated lazily. This
is that list, written from the spec's words, to be compared with
`Event.validate`. -/
def validationChecks : List ((Event → Bool) × String) :=
  [ (fun e => e.vpcID ≠ "", "Datacenter VPC ID invalid"),
    (fun e => e.datacenterRegion ≠ "", "Datacenter Region invalid"),
    (fun e => e.datacenterSecret ≠ "", "Datacenter credentials invalid"),
    (fun e => e.datacenterToken ≠ "", "Datacenter credentials invalid"),
    (fun e => e.elbName ≠ "", "ELB name is invalid") ]

/-- First failing check's message of an ordered check list, `none` when
every check passes. -/
def firstFailure : List ((Event → Bool) × String) → Event → Option String
  | [], _ => none
  | (p, m) :: rest, e => if p e then firstFailure rest e else some m

/-- The subject `main` subscribes to (`src/main.go` line 85). -/
def subscribeSubject : String := "elb.create.aws"

/-- Modelled from the spec: the success subject used by
`Event.Complete` (not under `src/`); the test file subscribes to it
(`part_000` line 60). -/
def doneSubject : String := "elb.delete.aws.done"

/-- Modelled from the spec: the failure subject used by `Event.Error`
(not under `src/`); the test file subscribes to it (`part_000`
line 61). -/
def errorSubject : String := "elb.delete.aws.error"

/-- A structured-data payload, standing for the JSON bytes carried on
the bus: the envelope's wire form. -/
inductive Json where
  | null : Json
  | bool : Bool → Json
  | num : Int → Json
  | str : String → Json
  | arr : List Json → Json
  | obj : List (String × Json) → Json

/-- Look a key up in the field list of a structured-data object. -/
def getField : List (String × Json) → String → Option Json
  | [], _ => none
  | (k, v) :: rest, key => if k = key then some v else getField rest key

/-- A field read as a string, empty when absent or of another shape
(missing fields take their zero value). -/
def getStr (fields : List (String × Json)) (key : String) : String :=
  match getField fields key with
  | some (Json.str s) => s
  | _ => ""

/-- A field read as an integer, zero when absent or of another shape. -/
def getNum (fields : List (String × Json)) (key : String) : Int :=
  match getField fields key with
  | some (Json.num n) => n
  | _ => 0

/-- A field read as a boolean, false when absent or of another shape. -/
def getBool (fields : List (String × Json)) (key : String) : Bool :=
  match getField fields key with
  | some (Json.bool b) => b
  | _ => false

/-- A payload read as a string, empty when of another shape. -/
def jsonToStr : Json → String
  | Json.str s => s
  | _ => ""

/-- A field read as an array of strings, empty when absent; non-string
elements take their zero value. -/
def getStrList (fields : List (String × Json)) (key : String) : List String :=
  match getField fields key with
  | some (Json.arr xs) => xs.map jsonToStr
  | _ => []

/-- One port mapping read from its wire object; missing fields take
their zero value. -/
def decodePort (j : Json) : Port :=
  match j with
  | Json.obj fields =>
    { fromPort := getNum fields "from_port"
      toPort := getNum fields "to_port"
      protocol := getStr fields "protocol"
      sslCertID := getStr fields "ssl_cert" }
  | _ => { fromPort := 0, toPort := 0, protocol := "", sslCertID := "" }

/-- The port-mapping sequence read from its wire field. -/
def getPorts (fields : List (String × Json)) (key : String) : List Port :=
  match getField fields key with
  | some (Json.arr xs) => xs.map decodePort
  | _ => []

/-- Modelled from the spec: `Event.Process` (decode) is not under
`src/`; §4.1 says decode parses a structured-data payload into the
envelope, failing only when the payload is not well-formed (here: not
an object), with unknown fields ignored and missing fields taking
their zero value. -/
def decode (j : Json) : Option Event :=
  match j with
  | Json.obj fields =>
    some
      { uuid := getStr fields "_uuid"
        batchID := getStr fields "_batch_id"
        providerType := getStr fields "_type"
        vpcID := getStr fields "vpc_id"
        datacenterRegion := getStr fields "datacenter_region"
        datacenterSecret := getStr fields "datacenter_secret"
        datacenterToken := getStr fields "datacenter_token"
        elbName := getStr fields "name"
        elbIsPrivate := getBool fields "is_private"
        elbPorts := getPorts fields "listeners"
        networkAWSIDs := getStrList fields "network_aws_ids"
        instanceAWSIDs := getStrList fields "instance_aws_ids"
        securityGroupAWSIDs := getStrList fields "security_group_aws_ids"
        errorMessage :=
          match getField fields "error" with
          | some (Json.str s) => some s
          | _ => none }
  | _ => none

/-- One port mapping's wire object. -/
def encodePort (p : Port) : Json :=
  Json.obj
    [ ("from_port", Json.num p.fromPort),
      ("to_port", Json.num p.toPort),
      ("protocol", Json.str p.protocol),
      ("ssl_cert", Json.str p.sslCertID) ]

/-- Modelled from the spec: `encode` (the marshalling done by
`Event.Complete` / `Event.Error`, not under `src/`); §4.1 calls it a
deterministic structured-data serialization of the possibly
error-annotated envelope, the error field omitted when empty (the test
file asserts the error wire key is `"error"`). -/
def encode (e : Event) : Json :=
  Json.obj
    ([ ("_uuid", Json.str e.uuid),
       ("_batch_id", Json.str e.batchID),
       ("_type", Json.str e.providerType),
       ("vpc_id", Json.str e.vpcID),
       ("datacenter_region", Json.str e.datacenterRegion),
       ("datacenter_secret", Json.str e.datacenterSecret),
       ("datacenter_token", Json.str e.datacenterToken),
       ("name", Json.str e.elbName),
       ("is_private", Json.bool e.elbIsPrivate),
       ("listeners", Json.arr (e.elbPorts.map encodePort)),
       ("network_aws_ids", Json.arr (e.networkAWSIDs.map Json.str)),
       ("instance_aws_ids", Json.arr (e.instanceAWSIDs.map Json.str)),
       ("security_group_aws_ids", Json.arr (e.securityGroupAWSIDs.map Json.str)) ]
     ++ match e.errorMessage with
        | some m => [("error", Json.str m)]
        | none => [])

/-- The provider request `deleteELB` builds (`src/main.go` lines 61-72):
static credentials from the envelope's secret and token, a config
carrying the region, and a delete request naming the load balancer.
Nothing else of the envelope reaches the provider. -/
structure ProviderRequest where
  credentialsID : String
  credentialsSecret : String
  region : String
  loadBalancerName : String
deriving Repr, DecidableEq

/-- The request construction of `deleteELB` (`src/main.go` lines
61-72): `NewStaticCredentials(ev.DatacenterSecret, ev.DatacenterToken,
"")`, `Region: ev.DatacenterRegion`, `LoadBalancerName: ev.ELBName`. -/
def deleteELBRequest (ev : Event) : ProviderRequest :=
  { credentialsID := ev.datacenterSecret
    credentialsSecret := ev.datacenterToken
    region := ev.datacenterRegion
    loadBalancerName := ev.elbName }

/-- `deleteELB` (`src/main.go` lines 61-79) with the provider's
`DeleteLoadBalancer` call injected as a capability: it builds the
request and returns the provider's error verbatim (`none` = success). -/
def deleteELB (provider : ProviderRequest → Option String) (ev : Event) :
    Option String :=
  provider (deleteELBRequest ev)

/-- An ELB listener as built by `mapListeners`. -/
structure Listener where
  protocol : String
  loadBalancerPort : Int
  instancePort : Int
  instanceProtocol : String
  sslCertificateId : String
deriving Repr, DecidableEq

/-- `mapListeners` (`src/main.go` lines 45-59): a loop appending one
listener per port mapping, load-balancer port from the from-port,
instance port from the to-port, the protocol copied to both protocol
fields, the TLS certificate id copied over. -/
def mapListeners (ev : Event) : List Listener :=
  ev.elbPorts.foldl
    (fun l port =>
      l ++ [{ protocol := port.protocol
              loadBalancerPort := port.fromPort
              instancePort := port.toPort
              instanceProtocol := port.protocol
              sslCertificateId := port.sslCertID }])
    []

/-- `eventHandler` (`src/main.go` lines 23-43), with the provider call
injected. The result is the at-most-one outgoing message — subject and
published envelope (serialized with `encode` by the publisher) — paired
with the number of times the external delete action was invoked:
decode failure drops silently; a validation failure publishes the
envelope with the message attached to the failure subject without
touching the provider; a provider failure publishes the envelope with
the cause attached to the failure subject; otherwise `Complete`
publishes the envelope unchanged to the success subject. -/
def eventHandler (provider : ProviderRequest → Option String) (msg : Json) :
    Option (String × Event) × Nat :=
  match decode msg with
  | none => (none, 0)
  | some e =>
    match e.validate with
    | some vmsg => (some (errorSubject, { e with errorMessage := some vmsg }), 0)
    | none =>
      match deleteELB provider e with
      | some cause => (some (errorSubject, { e with errorMessage := some cause }), 1)
      | none => (some (doneSubject, e), 1)

/-- The envelope the test file builds (`part_000` lines 22-43). -/
def testEvent : Event :=
  { uuid := "test"
    batchID := "test"
    providerType := "aws"
    vpcID := "vpc-0000000"
    datacenterRegion := "eu-west-1"
    datacenterSecret := "key"
    datacenterToken := "token"
    elbName := "test-elb"
    elbIsPrivate := false
    elbPorts := [{ fromPort := 80, toPort := 80, protocol := "HTTP", sslCertID := "" }]
    networkAWSIDs := ["subnet-0000000"]
    instanceAWSIDs := ["i-0000000"]
    securityGroupAWSIDs := ["sg-0000000"]
    errorMessage := none }

/-- An inbound envelope that already carries error text: well-formed,
passing every validation check, but with the optional error field set. -/
def taintedEvent : Event :=
  { testEvent with errorMessage := some "boom" }

/-! ## Theorems -/

/-- Appending one mapped element per iteration is the same as mapping. -/
theorem foldl_append_eq_map (f : Port → Listener) (ps : List Port)
    (acc : List Listener) :
    ps.foldl (fun l port => l ++ [f port]) acc = acc ++ ps.map f := by
  induction ps generalizing acc with
  | nil => simp
  | cons p ps ih => simp [List.foldl_cons, ih]

/-- Decoding an encoded port mapping recovers it. -/
theorem decodePort_encodePort (p : Port) : decodePort (encodePort p) = p := rfl

/-- Decoding an encoded port-mapping sequence recovers it. -/
theorem map_decodePort_encodePort (l : List Port) :
    (l.map encodePort).map decodePort = l := by
  induction l with
  | nil => rfl
  | cons p l ih => simp [List.map_cons, ih, decodePort_encodePort]

/-- Decoding an encoded string sequence recovers it. -/
theorem map_jsonToStr_str (l : List String) :
    (l.map Json.str).map jsonToStr = l := by
  induction l with
  | nil => rfl
  | cons s l ih => simp [List.map_cons, ih, jsonToStr]

/-- C2: validation runs its checks in the fixed order — target network
id, datacenter region, datacenter secret, datacenter token, resource
name — returning exactly the first failing check's message ("Datacenter
VPC ID invalid", "Datacenter Region invalid", "Datacenter credentials
invalid" for an empty secret and likewise for an empty token, "ELB name
is invalid"), and succeeds when all five fields are non-empty; it
coincides with the spec's ordered check list. -/
theorem validate_first_failure (e : Event) :
    e.validate = firstFailure validationChecks e ∧
    (e.vpcID = "" → e.validate = some "Datacenter VPC ID invalid") ∧
    (e.vpcID ≠ "" → e.datacenterRegion = "" →
      e.validate = some "Datacenter Region invalid") ∧
    (e.vpcID ≠ "" → e.datacenterRegion ≠ "" → e.datacenterSecret = "" →
      e.validate = some "Datacenter credentials invalid") ∧
    (e.vpcID ≠ "" → e.datacenterRegion ≠ "" → e.datacenterSecret ≠ "" →
      e.datacenterToken = "" → e.validate = some "Datacenter credentials invalid") ∧
    (e.vpcID ≠ "" → e.datacenterRegion ≠ "" → e.datacenterSecret ≠ "" →
      e.datacenterToken ≠ "" → e.elbName = "" →
      e.validate = some "ELB name is invalid") ∧
    (e.vpcID ≠ "" → e.datacenterRegion ≠ "" → e.datacenterSecret ≠ "" →
      e.datacenterToken ≠ "" → e.elbName ≠ "" → e.validate = none) := by
  refine ⟨?_, ?_, ?_, ?_, ?_, ?_, ?_⟩ <;>
    simp only [Event.validate, firstFailure, validationChecks] <;>
    intros <;> simp_all

/-- C2 witness: the validator at concrete envelopes — the test
envelope is valid, and the test envelope with its token blanked fails
with exactly the credentials message. -/
theorem validate_first_failure_witness :
    testEvent.validate = none ∧
    ({ testEvent with datacenterToken := "" } : Event).validate =
      some "Datacenter credentials invalid" := by
  constructor
  · exact (validate_first_failure testEvent).2.2.2.2.2.2
      (by decide) (by decide) (by decide) (by decide) (by decide)
  · exact (validate_first_failure _).2.2.2.2.1
      (by decide) (by decide) (by decide) rfl

/-- C5: the subjects named by the code. The two outbound outcome
subjects are `elb.delete.aws.done` and `elb.delete.aws.error`, but the
inbound subscription in `main` is `elb.create.aws` — it does not name
the delete operation the outcome subjects name, contradicting the
claim's `elb.delete.aws` trigger. -/
theorem subjects_mismatch :
    subscribeSubject = "elb.create.aws" ∧
    doneSubject = "elb.delete.aws.done" ∧
    errorSubject = "elb.delete.aws.error" ∧
    subscribeSubject ≠ "elb.delete.aws" ∧
    subscribeSubject ++ ".done" ≠ doneSubject ∧
    subscribeSubject ++ ".error" ≠ errorSubject := by
  refine ⟨rfl, rfl, rfl, ?_, ?_, ?_⟩ <;> decide

/-- C10: `mapListeners` yields one listener per port-mapping entry, in
order — load-balancer port from the entry's from-port, instance port
from its to-port, the protocol copied to both protocol fields, the TLS
certificate id copied — and an empty sequence yields an empty result. -/
theorem mapListeners_spec (ev : Event) :
    (mapListeners ev).length = ev.elbPorts.length ∧
    (ev.elbPorts = [] → mapListeners ev = []) ∧
    (∀ i : Nat, ∀ h : i < ev.elbPorts.length,
      (mapListeners ev)[i]? =
        some { protocol := (ev.elbPorts.get ⟨i, h⟩).protocol
               loadBalancerPort := (ev.elbPorts.get ⟨i, h⟩).fromPort
               instancePort := (ev.elbPorts.get ⟨i, h⟩).toPort
               instanceProtocol := (ev.elbPorts.get ⟨i, h⟩).protocol
               sslCertificateId := (ev.elbPorts.get ⟨i, h⟩).sslCertID }) := by
  have hmap : mapListeners ev = ev.elbPorts.map
      (fun port => { protocol := port.protocol
                     loadBalancerPort := port.fromPort
                     instancePort := port.toPort
                     instanceProtocol := port.protocol
                     sslCertificateId := port.sslCertID }) := by
    simpa using foldl_append_eq_map _ ev.elbPorts []
  refine ⟨by simp [hmap], by intro h; simp [hmap, h], ?_⟩
  intro i h
  simp [hmap, List.getElem?_map, List.getElem?_eq_getElem h]

/-- C10 witness: the single port mapping {80, 80, HTTP} of the test
envelope becomes the expected listener. -/
theorem mapListeners_spec_witness :
    (mapListeners testEvent)[0]? =
      some { protocol := "HTTP", loadBalancerPort := 80, instancePort := 80,
             instanceProtocol := "HTTP", sslCertificateId := "" } := by
  have h := (mapListeners_spec testEvent).2.2 0 (by decide)
  simpa using h

/-- C8: the delete action ignores port mappings — an envelope with its
port mappings replaced by any other sequence yields the same provider
request (built only from datacenter secret, token, region and resource
name) and the same outcome for every provider behaviour. -/
theorem deleteELB_ignores_ports (ev : Event) (ps : List Port)
    (provider : ProviderRequest → Option String) :
    deleteELBRequest { ev with elbPorts := ps } = deleteELBRequest ev ∧
    deleteELB provider { ev with elbPorts := ps } = deleteELB provider ev ∧
    deleteELBRequest ev =
      { credentialsID := ev.datacenterSecret
        credentialsSecret := ev.datacenterToken
        region := ev.datacenterRegion
        loadBalancerName := ev.elbName } :=
  ⟨rfl, rfl, rfl⟩

/-- C6: decoding is a total function — no payload panics it — and on a
decode failure the handler drops the message: no validation outcome, no
external action (zero provider invocations) and no publish. -/
theorem decode_failure_drops (provider : ProviderRequest → Option String)
    (msg : Json) (h : decode msg = none) :
    eventHandler provider msg = (none, 0) := by
  simp [eventHandler, h]

/-- C6 witness: a non-object payload is dropped with no publish and no
action. -/
theorem decode_failure_drops_witness :
    eventHandler (fun _ => none) (Json.str "not an event") = (none, 0) :=
  decode_failure_drops _ _ rfl

/-- C7: the external delete action is attempted at most once per
inbound message, whatever the payload and the provider outcome. -/
theorem action_at_most_once (provider : ProviderRequest → Option String)
    (msg : Json) : (eventHandler provider msg).2 ≤ 1 := by
  unfold eventHandler
  cases decode msg with
  | none => simp
  | some e =>
    cases hv : e.validate with
    | some m => simp [hv]
    | none => cases hp : deleteELB provider e with
      | some c => simp [hv, hp]
      | none => simp [hv, hp]

/-- C3: after a successful decode no error is silent — a validation
failure skips the external action (zero provider invocations) and
publishes the envelope, all other fields unchanged, with the validation
message as error text to the failure subject; an execution failure
publishes the envelope with the provider's cause as error text to the
failure subject. -/
theorem errors_always_published (provider : ProviderRequest → Option String)
    (msg : Json) (e : Event) :
    (∀ m, decode msg = some e → e.validate = some m →
      eventHandler provider msg =
        (some (errorSubject, { e with errorMessage := some m }), 0)) ∧
    (∀ cause, decode msg = some e → e.validate = none →
      deleteELB provider e = some cause →
      eventHandler provider msg =
        (some (errorSubject, { e with errorMessage := some cause }), 1)) := by
  constructor
  · intro m hd hv
    simp [eventHandler, hd, hv]
  · intro cause hd hv hp
    simp [eventHandler, hd, hv, hp]

/-- C3 witness: the test envelope with its region blanked — decoded
from its own wire form — is not executed and is published to the
failure subject carrying exactly "Datacenter Region invalid". -/
theorem errors_always_published_witness :
    eventHandler (fun _ => none)
        (encode { testEvent with datacenterRegion := "" }) =
      (some (errorSubject,
        { testEvent with datacenterRegion := "",
                         errorMessage := some "Datacenter Region invalid" }), 0) :=
  (errors_always_published (fun _ => none)
      (encode { testEvent with datacenterRegion := "" })
      { testEvent with datacenterRegion := "" }).1
    "Datacenter Region invalid" rfl rfl

/-- C1 counterexample: an inbound message whose envelope already
carries error text defeats "error text populated exactly when the
failure destination is used" — it decodes, validates and completes, so
the one outgoing message goes to the success destination, yet the
published envelope's error text is populated. -/
theorem success_with_error_text :
    (eventHandler (fun _ => none) (encode taintedEvent)).1 =
      some (doneSubject, taintedEvent) ∧
    taintedEvent.errorMessage = some "boom" ∧
    doneSubject ≠ errorSubject :=
  ⟨rfl, rfl, by decide⟩

/-- C1 (amended): per inbound message, a decode failure publishes
nothing and runs no action; a successful decode publishes exactly one
message, to one of the two (distinct) destinations; the failure
destination always carries populated error text; and whenever the
decoded envelope carried no error text, error text is populated exactly
when the failure destination is used. -/
theorem eventHandler_outcomes (provider : ProviderRequest → Option String)
    (msg : Json) :
    (decode msg = none → eventHandler provider msg = (none, 0)) ∧
    (∀ e, decode msg = some e → ((eventHandler provider msg).1).isSome = true) ∧
    (∀ subj env, (eventHandler provider msg).1 = some (subj, env) →
      (subj = doneSubject ∨ subj = errorSubject) ∧ doneSubject ≠ errorSubject ∧
      (subj = errorSubject → env.errorMessage ≠ none)) ∧
    (∀ e subj env, decode msg = some e → e.errorMessage = none →
      (eventHandler provider msg).1 = some (subj, env) →
      (subj = errorSubject ↔ env.errorMessage ≠ none)) := by
  have hne : doneSubject ≠ errorSubject := by decide
  refine ⟨fun h => by simp [eventHandler, h], ?_, ?_, ?_⟩
  · intro e hd
    simp only [eventHandler, hd]
    cases hv : e.validate with
    | some m => simp
    | none =>
      cases hp : deleteELB provider e with
      | some c => simp
      | none => simp
  · intro subj env h
    cases hd : decode msg with
    | none =>
      have hev : (eventHandler provider msg).1 = none := by
        simp [eventHandler, hd]
      rw [hev] at h
      exact absurd h (by simp)
    | some e =>
      cases hv : e.validate with
      | some m =>
        have hev : (eventHandler provider msg).1 =
            some (errorSubject, { e with errorMessage := some m }) := by
          simp [eventHandler, hd, hv]
        rw [hev] at h
        injection h with h'
        injection h' with hA hB
        subst hA; subst hB
        exact ⟨Or.inr rfl, hne, fun _ => by simp⟩
      | none =>
        cases hp : deleteELB provider e with
        | some c =>
          have hev : (eventHandler provider msg).1 =
              some (errorSubject, { e with errorMessage := some c }) := by
            simp [eventHandler, hd, hv, hp]
          rw [hev] at h
          injection h with h'
          injection h' with hA hB
          subst hA; subst hB
          exact ⟨Or.inr rfl, hne, fun _ => by simp⟩
        | none =>
          have hev : (eventHandler provider msg).1 = some (doneSubject, e) := by
            simp [eventHandler, hd, hv, hp]
          rw [hev] at h
          injection h with h'
          injection h' with hA hB
          subst hA; subst hB
          exact ⟨Or.inl rfl, hne, fun hcontra => absurd hcontra hne⟩
  · intro e subj env hd herr h
    cases hv : e.validate with
    | some m =>
      have hev : (eventHandler provider msg).1 =
          some (errorSubject, { e with errorMessage := some m }) := by
        simp [eventHandler, hd, hv]
      rw [hev] at h
      injection h with h'
      injection h' with hA hB
      subst hA; subst hB
      simp
    | none =>
      cases hp : deleteELB provider e with
      | some c =>
        have hev : (eventHandler provider msg).1 =
            some (errorSubject, { e with errorMessage := some c }) := by
          simp [eventHandler, hd, hv, hp]
        rw [hev] at h
        injection h with h'
        injection h' with hA hB
        subst hA; subst hB
        simp
      | none =>
        have hev : (eventHandler provider msg).1 = some (doneSubject, e) := by
          simp [eventHandler, hd, hv, hp]
        rw [hev] at h
        injection h with h'
        injection h' with hA hB
        subst hA; subst hB
        simp only [herr]
        constructor
        · intro hcontra
          exact absurd hcontra hne
        · intro hcontra
          exact absurd rfl hcontra

/-- C1 witness: on the success path of the error-free test envelope,
the amended biconditional holds — the destination is not the failure
subject and the published error text is absent. -/
theorem eventHandler_outcomes_witness :
    (doneSubject = errorSubject ↔ testEvent.errorMessage ≠ none) ∧
    eventHandler (fun _ => none) Json.null = (none, 0) :=
  ⟨(eventHandler_outcomes (fun _ => none) (encode testEvent)).2.2.2
      testEvent doneSubject testEvent rfl rfl rfl,
    (eventHandler_outcomes (fun _ => none) Json.null).1 rfl⟩

/-- C4: encode and decode are mutually inverse on the success path —
any envelope with no error text decodes from its own encoding
unchanged — and a completed envelope is republished unchanged to the
success destination, so the payload the publisher serializes is
byte-identical to the original decoded input. -/
theorem encode_decode_roundtrip (e : Event) (h : e.errorMessage = none) :
    decode (encode e) = some e ∧
    (∀ provider, e.validate = none → deleteELB provider e = none →
      (eventHandler provider (encode e)).1 = some (doneSubject, e)) := by
  have hrt : decode (encode e) = some e := by
    cases e with
    | mk uuid batchID providerType vpcID region secret token name priv
        ports nets insts sgs err =>
      have herr : err = none := h
      subst herr
      simp only [encode, decode, getStr, getNum, getBool, getPorts, getStrList,
        getField]
      simp
      refine ⟨?_, ?_, ?_, ?_⟩
      · simpa [List.map_map] using map_decodePort_encodePort ports
      · simpa [List.map_map] using map_jsonToStr_str nets
      · simpa [List.map_map] using map_jsonToStr_str insts
      · simpa [List.map_map] using map_jsonToStr_str sgs
  refine ⟨hrt, ?_⟩
  intro provider hv hp
  simp [eventHandler, hrt, hv, hp]

/-- C4 witness: the test envelope round-trips through its wire form,
and with a succeeding provider its completion is published to the
success subject unchanged. -/
theorem encode_decode_roundtrip_witness :
    decode (encode testEvent) = some testEvent ∧
    (eventHandler (fun _ => none) (encode testEvent)).1 =
      some (doneSubject, testEvent) :=
  ⟨(encode_decode_roundtrip testEvent rfl).1,
    (encode_decode_roundtrip testEvent rfl).2 (fun _ => none) rfl rfl⟩

end ElbDeleter
